import Mathlib

/-!
Shallow embedding of the installation executor of this repository
(poetry, file src/poetry/installation/executor.py) and proofs about it.

The executor consumes resolved operations (install / update / uninstall)
and drives all side effects: network downloads into an artifact cache,
hash verification, subprocess invocations of pip, VCS clones, and
directory installs with a synthesized legacy build shim.

Modelling conventions:
  - Side effects are recorded as an explicit trace of events (Ev).
  - The artifact cache is a map from path to file content.
  - Fallible steps return Except.
  - Collaborators that are not part of the excerpted source (chooser,
    HTTP session, SHA-256 hashing, the Chef archive preparer, the pip
    subprocess) are modelled from the spec as explicit parameters, so
    every theorem quantifies over their behaviour.
-/

/-- Observable side effects of the executor, in program order. -/
inductive Ev where
  | log (msg : String)
  | net (url : String)
  | cacheWrite (path : String)
  | fsWrite (path : String)
  | fsRemove (path : String)
  | mkdirEv (path : String)
  | run (args : List String)
  | cloneEv (url : String) (dir : String)
  | checkoutEv (ref : String) (dir : String)
  deriving DecidableEq

/-- Whether an event is a network access. -/
def Ev.isNet : Ev → Bool
  | Ev.net _ => true
  | _ => false

/-- Whether an event is a subprocess invocation. -/
def Ev.isRun : Ev → Bool
  | Ev.run _ => true
  | _ => false

/-- Whether an event is a pure log line (no mutation of any state). -/
def Ev.isLog : Ev → Bool
  | Ev.log _ => true
  | _ => false

/-- One integrity record of package.files, a lock-recorded filename and hash. -/
structure FileRecord where
  file : String
  hash : String
  deriving DecidableEq

/-- The lock-derived package record consumed by the executor
(fields of poetry-core Package that the excerpted source reads). -/
structure Package where
  name : String
  prettyName : String
  version : String
  fullPrettyVersion : String
  sourceType : String
  sourceUrl : String
  sourceReference : String
  develop : Bool
  rootDir : Option String
  files : List FileRecord
  deriving DecidableEq

/-- Modelled from the spec: the constructor Package(name, version) of
poetry-core (not under src/) produces a fresh record with default source
fields; the source then assigns source_type, source_url and develop on it. -/
def Package.fresh (name version : String) : Package :=
  { name := name
    prettyName := name
    version := version
    fullPrettyVersion := version
    sourceType := ""
    sourceUrl := ""
    sourceReference := ""
    develop := false
    rootDir := none
    files := [] }

/-- The cross-cutting execution policy flags of the Executor
(self._enabled, self._dry_run, self._verbose). -/
structure Policy where
  enabled : Bool
  dryRun : Bool
  verbose : Bool
  deriving DecidableEq

/-- Install operation. -/
structure InstallOp where
  package : Package
  skipped : Bool
  skipReason : String
  deriving DecidableEq

/-- Update operation. -/
structure UpdateOp where
  initialPackage : Package
  targetPackage : Package
  skipped : Bool
  skipReason : String
  deriving DecidableEq

/-- Uninstall operation. -/
structure UninstallOp where
  package : Package
  skipped : Bool
  skipReason : String
  deriving DecidableEq

/-- Skip notice of _execute_install. -/
def skipInstallMsg (p : Package) (reason : String) : String :=
  "  - Skipping <c1>" ++ p.prettyName ++ "</c1> (<b>" ++ p.fullPrettyVersion
    ++ "</b>) " ++ reason

/-- Dry-run or disabled notice of _execute_install. -/
def dryInstallMsg (p : Package) : String :=
  "  - Installing <c1>" ++ p.prettyName ++ "</c1> (<b>" ++ p.fullPrettyVersion ++ "</b>)"

/-- Skip notice of _execute_update (formatted from the target package). -/
def skipUpdateMsg (target : Package) (reason : String) : String :=
  "  - Skipping <c1>" ++ target.prettyName ++ "</c1> (<b>" ++ target.fullPrettyVersion
    ++ "</b>) " ++ reason

/-- Updating notice of _execute_update. -/
def updatingMsg (source target : Package) : String :=
  "  - Updating <c1>" ++ target.prettyName ++ "</c1> (<b>" ++ source.fullPrettyVersion
    ++ "</b> -> <b>" ++ target.fullPrettyVersion ++ "</b>)"

/-- Skip notice of _execute_uninstall. -/
def skipUninstallMsg (p : Package) (reason : String) : String :=
  "  - Not removing <c1>" ++ p.prettyName ++ "</c1> (<b>" ++ p.fullPrettyVersion
    ++ "</b>) " ++ reason

/-- Removing notice of _execute_uninstall. -/
def removingMsg (p : Package) : String :=
  "  - Removing <c1>" ++ p.prettyName ++ "</c1> (<b>" ++ p.fullPrettyVersion ++ "</b>)"

/-- Executor._execute_install. The real action self._install(package) is the
parameter act, a state transformer producing its own trace; the handler
decides whether act is invoked at all. -/
def executeInstall {σ ε : Type} (act : σ → List Ev × σ × Except ε Unit)
    (pol : Policy) (op : InstallOp) (st : σ) : List Ev × σ × Except ε Unit :=
  if op.skipped then
    ((if pol.verbose && (pol.enabled || pol.dryRun) then
        [Ev.log (skipInstallMsg op.package op.skipReason)]
      else []), st, Except.ok ())
  else if !pol.enabled || pol.dryRun then
    ([Ev.log (dryInstallMsg op.package)], st, Except.ok ())
  else
    act st

/-- Executor._execute_update. Mirrors the source control flow exactly: the
notice is emitted when enabled or dry_run, but the early return that skips
the real action self._update(source, target) tests only (not enabled). -/
def executeUpdate {σ ε : Type} (act : σ → List Ev × σ × Except ε Unit)
    (pol : Policy) (op : UpdateOp) (st : σ) : List Ev × σ × Except ε Unit :=
  if op.skipped then
    ((if pol.verbose && (pol.enabled || pol.dryRun) then
        [Ev.log (skipUpdateMsg op.targetPackage op.skipReason)]
      else []), st, Except.ok ())
  else
    let pre := if pol.enabled || pol.dryRun then
        [Ev.log (updatingMsg op.initialPackage op.targetPackage)]
      else []
    if !pol.enabled then (pre, st, Except.ok ())
    else
      let r := act st
      (pre ++ r.1, r.2.1, r.2.2)

/-- Executor._execute_uninstall. Same control-flow shape as _execute_update,
with act standing for self._remove(operation.package). -/
def executeUninstall {σ ε : Type} (act : σ → List Ev × σ × Except ε Unit)
    (pol : Policy) (op : UninstallOp) (st : σ) : List Ev × σ × Except ε Unit :=
  if op.skipped then
    ((if pol.verbose && (pol.enabled || pol.dryRun) then
        [Ev.log (skipUninstallMsg op.package op.skipReason)]
      else []), st, Except.ok ())
  else
    let pre := if pol.enabled || pol.dryRun then
        [Ev.log (removingMsg op.package)]
      else []
    if !pol.enabled then (pre, st, Except.ok ())
    else
      let r := act st
      (pre ++ r.1, r.2.1, r.2.2)

/-- C4: for every Install, Update or Uninstall operation with skipped = true,
execution performs no cache write, no subprocess invocation and no filesystem
mutation (every emitted event is a log line and the state is unchanged, with a
successful result), and a log line appears iff verbose and (enabled or dry_run). -/
theorem skipped_ops_frame {σ ε : Type}
    (actI actU actR : σ → List Ev × σ × Except ε Unit) (pol : Policy)
    (opI : InstallOp) (opU : UpdateOp) (opN : UninstallOp) (st : σ)
    (hI : opI.skipped = true) (hU : opU.skipped = true) (hN : opN.skipped = true) :
    ((executeInstall actI pol opI st).1.all Ev.isLog = true
      ∧ (executeInstall actI pol opI st).2.1 = st
      ∧ (executeInstall actI pol opI st).2.2 = Except.ok ()
      ∧ ((executeInstall actI pol opI st).1 ≠ []
          ↔ (pol.verbose && (pol.enabled || pol.dryRun)) = true))
    ∧ ((executeUpdate actU pol opU st).1.all Ev.isLog = true
      ∧ (executeUpdate actU pol opU st).2.1 = st
      ∧ (executeUpdate actU pol opU st).2.2 = Except.ok ()
      ∧ ((executeUpdate actU pol opU st).1 ≠ []
          ↔ (pol.verbose && (pol.enabled || pol.dryRun)) = true))
    ∧ ((executeUninstall actR pol opN st).1.all Ev.isLog = true
      ∧ (executeUninstall actR pol opN st).2.1 = st
      ∧ (executeUninstall actR pol opN st).2.2 = Except.ok ()
      ∧ ((executeUninstall actR pol opN st).1 ≠ []
          ↔ (pol.verbose && (pol.enabled || pol.dryRun)) = true)) := by
  refine ⟨?_, ?_, ?_⟩ <;>
    simp only [executeInstall, executeUpdate, executeUninstall, hI, hU, hN, if_true] <;>
    by_cases hv : (pol.verbose && (pol.enabled || pol.dryRun)) = true <;>
    simp [hv, Ev.isLog]

/-- Concrete policy with verbose on, used by witnesses. -/
def polVerbose : Policy := { enabled := true, dryRun := false, verbose := true }

/-- Concrete registry-sourced package used by witnesses (empty files list). -/
def pkgReg : Package :=
  { name := "demo"
    prettyName := "demo"
    version := "1.0"
    fullPrettyVersion := "1.0"
    sourceType := ""
    sourceUrl := ""
    sourceReference := ""
    develop := false
    rootDir := none
    files := [] }

/-- Concrete no-op action over a trivial state, used by witnesses. -/
def actNoop : Nat → List Ev × Nat × Except Unit Unit :=
  fun s => ([], s, Except.ok ())

/-- Witness for C4 at a concrete skipped operation under a verbose policy. -/
theorem skipped_ops_frame_witness :
    (executeInstall actNoop polVerbose { package := pkgReg, skipped := true, skipReason := "r" } 0).1.all
      Ev.isLog = true :=
  (skipped_ops_frame actNoop actNoop actNoop polVerbose
    { package := pkgReg, skipped := true, skipReason := "r" }
    { initialPackage := pkgReg, targetPackage := pkgReg, skipped := true, skipReason := "r" }
    { package := pkgReg, skipped := true, skipReason := "r" } 0 rfl rfl rfl).1.1

/-- File content in the artifact cache, as a byte list. -/
abbrev Content : Type := List Nat

/-- The artifact cache and cache-adjacent filesystem: path to content. -/
abbrev Store : Type := String → Option Content

/-- Writing a file: the open("wb") plus chunk writes, as one atomic update
of the model store (the source streams chunks into the same final path). -/
def Store.write (s : Store) (p : String) (c : Content) : Store :=
  fun q => if q = p then some c else s q

/-- The distribution link selected by the Chooser: url, filename, wheel flag. -/
structure Link where
  url : String
  filename : String
  isWheel : Bool
  deriving DecidableEq

/-- Modelled from the spec: the collaborators of the download pipeline that are
not under src/ — Chooser.choose_for (selects the single best link for a
package), the HTTP session (body returned for a url), SHA-256 hex hashing via
FileDependency.hash, and the Chef archive preparer, an opaque transform
archive -> archive that converts a non-wheel archive into an installable file
(modelled as producing a file at preparePath whose content is prepareContent
of the input). Theorems quantify over this record. -/
structure DownloadCtx where
  choose : Package → Link
  fetch : String → Content
  sha256hex : Content → String
  preparePath : String → String
  prepareContent : Content → Content

/-- Cache root: CACHE_DIR / "artifacts". -/
def cacheRoot : String := "CACHE_DIR/artifacts"

/-- cache_dir = self._cache_dir / package.name. -/
def cacheDirOf (pkg : Package) : String := cacheRoot ++ "/" ++ pkg.name

/-- archive = cache_dir / link.filename, the raw cache entry path for the
chosen link of a package. -/
def rawArchivePath (ctx : DownloadCtx) (pkg : Package) : String :=
  cacheDirOf pkg ++ "/" ++ (ctx.choose pkg).filename

/-- Errors of the download pipeline. integrityMismatch models the
RuntimeError("Invalid hash for <package> using archive <name>"). -/
inductive DownloadError where
  | integrityMismatch (package : String) (archiveName : String)
  | fileNotFound (path : String)
  deriving DecidableEq

instance {α β : Type} [DecidableEq α] [DecidableEq β] : DecidableEq (Except α β) :=
  fun a b =>
    match a, b with
    | Except.ok x, Except.ok y =>
        if h : x = y then isTrue (by rw [h]) else isFalse (by intro hc; cases hc; exact h rfl)
    | Except.error x, Except.error y =>
        if h : x = y then isTrue (by rw [h]) else isFalse (by intro hc; cases hc; exact h rfl)
    | Except.ok _, Except.error _ => isFalse (by intro hc; cases hc)
    | Except.error _, Except.ok _ => isFalse (by intro hc; cases hc)

/-- Basename of a path (archive.name in the error message). -/
def baseName (p : String) : String := (p.splitOn "/").getLastD p

/-- Whether a digest string is a member of the hash set of package.files. -/
def matchesFiles (pkg : Package) (digest : String) : Bool :=
  pkg.files.any (fun f => f.hash = digest)

/-- The hash gate of _download (lines 331-336): when package.files is
non-empty, hash the file at archive and require membership in the recorded
hash set, else raise. Reading a missing file is a fileNotFound error. -/
def hashGate (ctx : DownloadCtx) (pkg : Package) (archive : String) (store : Store) :
    Except DownloadError Unit :=
  if pkg.files = [] then Except.ok ()
  else
    match store archive with
    | none => Except.error (DownloadError.fileNotFound archive)
    | some c =>
        if matchesFiles pkg ("sha256:" ++ ctx.sha256hex c) then Except.ok ()
        else Except.error (DownloadError.integrityMismatch pkg.name (baseName archive))

/-- Downloading notice of _download. -/
def downloadingMsg (p : Package) : String :=
  "  - Downloading <c1>" ++ p.name ++ "</c1> (<b>" ++ p.version ++ "</b>)"


/-- The trace of a cache-miss download: mkdir, HTTP GET, notice, cache write. -/
def missEvs (ctx : DownloadCtx) (pkg : Package) : List Ev :=
  [Ev.mkdirEv (cacheDirOf pkg), Ev.net (ctx.choose pkg).url,
   Ev.log (downloadingMsg pkg), Ev.cacheWrite (rawArchivePath ctx pkg)]

/-- The shared tail of _download: evaluate the hash gate on the current
archive and either return it or propagate the integrity error (the side
effects so far, evs and store, survive the raise). -/
def gateAndReturn (ctx : DownloadCtx) (pkg : Package) (archive : String)
    (store : Store) (evs : List Ev) : List Ev × Store × Except DownloadError String :=
  match hashGate ctx pkg archive store with
  | Except.ok _ => (evs, store, Except.ok archive)
  | Except.error e => (evs, store, Except.error e)

/-- The cache-miss branch of _download (lines 292-329): fetch the body, write
the cache entry, and for a non-wheel link run the Chef preparer, which
replaces the working archive reference. -/
def downloadMiss (ctx : DownloadCtx) (pkg : Package) (store : Store) :
    List Ev × Store × Except DownloadError String :=
  let link := ctx.choose pkg
  let archive0 := rawArchivePath ctx pkg
  let body := ctx.fetch link.url
  let store1 := store.write archive0 body
  let archive := if link.isWheel then archive0 else ctx.preparePath archive0
  let store2 :=
    if link.isWheel then store1
    else store1.write (ctx.preparePath archive0) (ctx.prepareContent body)
  gateAndReturn ctx pkg archive store2 (missEvs ctx pkg)

/-- Executor._download: mkdir the cache dir, choose the link; if the cache
entry exists, reuse it without network access, else run the miss branch; in
both cases end in the hash gate. The progress indicator branches are
visual-only and are not modelled. -/
def download (ctx : DownloadCtx) (pkg : Package) (store : Store) :
    List Ev × Store × Except DownloadError String :=
  match store (rawArchivePath ctx pkg) with
  | some _ => gateAndReturn ctx pkg (rawArchivePath ctx pkg) store [Ev.mkdirEv (cacheDirOf pkg)]
  | none => downloadMiss ctx pkg store

/-- The path of the artifact a fresh (cache-miss) download ends with: the raw
cache path for a wheel link, the preparer output otherwise. -/
def freshArtifactPath (ctx : DownloadCtx) (pkg : Package) : String :=
  if (ctx.choose pkg).isWheel then rawArchivePath ctx pkg
  else ctx.preparePath (rawArchivePath ctx pkg)

/-- The content of the artifact a fresh download ends with. -/
def freshArtifactContent (ctx : DownloadCtx) (pkg : Package) : Content :=
  if (ctx.choose pkg).isWheel then ctx.fetch (ctx.choose pkg).url
  else ctx.prepareContent (ctx.fetch (ctx.choose pkg).url)

/-- The sha256-prefixed digest of that artifact. -/
def freshDigest (ctx : DownloadCtx) (pkg : Package) : String :=
  "sha256:" ++ ctx.sha256hex (freshArtifactContent ctx pkg)

/-- Lookup after a write at the written path. -/
theorem Store.write_same (s : Store) (p : String) (c : Content) :
    Store.write s p c p = some c := by
  simp [Store.write]

/-- Unfolding download on a cache hit. -/
theorem download_eq_hit (ctx : DownloadCtx) (pkg : Package) (store : Store)
    (c : Content) (hhit : store (rawArchivePath ctx pkg) = some c) :
    download ctx pkg store
      = gateAndReturn ctx pkg (rawArchivePath ctx pkg) store [Ev.mkdirEv (cacheDirOf pkg)] := by
  unfold download
  rw [hhit]

/-- Unfolding download on a cache miss. -/
theorem download_eq_miss (ctx : DownloadCtx) (pkg : Package) (store : Store)
    (hfresh : store (rawArchivePath ctx pkg) = none) :
    download ctx pkg store = downloadMiss ctx pkg store := by
  unfold download
  rw [hfresh]

/-- The gate-and-return tail, resolved at a readable file with non-empty files. -/
theorem gateAndReturn_resolved (ctx : DownloadCtx) (pkg : Package) (archive : String)
    (store : Store) (evs : List Ev) (c : Content)
    (hne : pkg.files ≠ []) (hc : store archive = some c) :
    gateAndReturn ctx pkg archive store evs
      = (evs, store,
          if matchesFiles pkg ("sha256:" ++ ctx.sha256hex c) then Except.ok archive
          else Except.error (DownloadError.integrityMismatch pkg.name (baseName archive))) := by
  unfold gateAndReturn hashGate
  rw [if_neg hne, hc]
  cases hm : matchesFiles pkg ("sha256:" ++ ctx.sha256hex c) <;> simp [hm]

/-- The gate-and-return tail when package.files is empty: no verification. -/
theorem gateAndReturn_empty (ctx : DownloadCtx) (pkg : Package) (archive : String)
    (store : Store) (evs : List Ev) (he : pkg.files = []) :
    gateAndReturn ctx pkg archive store evs = (evs, store, Except.ok archive) := by
  unfold gateAndReturn hashGate
  rw [if_pos he]

/-- The miss branch for a wheel link, in resolved form. -/
theorem downloadMiss_wheel (ctx : DownloadCtx) (pkg : Package) (store : Store)
    (hw : (ctx.choose pkg).isWheel = true) :
    downloadMiss ctx pkg store
      = gateAndReturn ctx pkg (rawArchivePath ctx pkg)
          (Store.write store (rawArchivePath ctx pkg) (ctx.fetch (ctx.choose pkg).url))
          (missEvs ctx pkg) := by
  unfold downloadMiss
  simp [hw]

/-- The miss branch for a non-wheel link, in resolved form. -/
theorem downloadMiss_sdist (ctx : DownloadCtx) (pkg : Package) (store : Store)
    (hw : (ctx.choose pkg).isWheel = false) :
    downloadMiss ctx pkg store
      = gateAndReturn ctx pkg (ctx.preparePath (rawArchivePath ctx pkg))
          (Store.write
            (Store.write store (rawArchivePath ctx pkg) (ctx.fetch (ctx.choose pkg).url))
            (ctx.preparePath (rawArchivePath ctx pkg))
            (ctx.prepareContent (ctx.fetch (ctx.choose pkg).url)))
          (missEvs ctx pkg) := by
  unfold downloadMiss
  simp [hw]

/-- The gate-and-return tail emits exactly the given events and keeps the store. -/
theorem gateAndReturn_effects (ctx : DownloadCtx) (pkg : Package) (archive : String)
    (store : Store) (evs : List Ev) :
    (gateAndReturn ctx pkg archive store evs).1 = evs
    ∧ (gateAndReturn ctx pkg archive store evs).2.1 = store := by
  unfold gateAndReturn
  cases hashGate ctx pkg archive store <;> simp

/-- The gate result does not depend on the events accumulated so far. -/
theorem gateAndReturn_result_ev_indep (ctx : DownloadCtx) (pkg : Package)
    (archive : String) (store : Store) (evs1 evs2 : List Ev) :
    (gateAndReturn ctx pkg archive store evs1).2.2
      = (gateAndReturn ctx pkg archive store evs2).2.2 := by
  unfold gateAndReturn
  cases hashGate ctx pkg archive store <;> simp

/-- The store a fresh download leaves behind. -/
def freshStore (ctx : DownloadCtx) (pkg : Package) (store : Store) : Store :=
  if (ctx.choose pkg).isWheel then
    Store.write store (rawArchivePath ctx pkg) (ctx.fetch (ctx.choose pkg).url)
  else
    Store.write
      (Store.write store (rawArchivePath ctx pkg) (ctx.fetch (ctx.choose pkg).url))
      (ctx.preparePath (rawArchivePath ctx pkg))
      (ctx.prepareContent (ctx.fetch (ctx.choose pkg).url))

/-- A fresh download with non-empty files, fully resolved: the miss trace, the
fresh store, and the gate verdict on the final artifact digest. -/
theorem download_fresh_resolved (ctx : DownloadCtx) (pkg : Package) (store : Store)
    (hne : pkg.files ≠ []) (hfresh : store (rawArchivePath ctx pkg) = none) :
    download ctx pkg store
      = (missEvs ctx pkg, freshStore ctx pkg store,
          if matchesFiles pkg (freshDigest ctx pkg) then
            Except.ok (freshArtifactPath ctx pkg)
          else
            Except.error (DownloadError.integrityMismatch pkg.name
              (baseName (freshArtifactPath ctx pkg)))) := by
  cases hw : (ctx.choose pkg).isWheel
  case false =>
    rw [download_eq_miss ctx pkg store hfresh, downloadMiss_sdist ctx pkg store hw,
      gateAndReturn_resolved ctx pkg _ _ _ _ hne (Store.write_same _ _ _)]
    simp [freshStore, freshDigest, freshArtifactContent, freshArtifactPath, hw]
  case true =>
    rw [download_eq_miss ctx pkg store hfresh, downloadMiss_wheel ctx pkg store hw,
      gateAndReturn_resolved ctx pkg _ _ _ _ hne (Store.write_same _ _ _)]
    simp [freshStore, freshDigest, freshArtifactContent, freshArtifactPath, hw]

/-- After a fresh wheel download whose digest matches no recorded hash, the
cache entry that was left behind never validates: the next call raises too. -/
theorem download_after_fresh_wheel_mismatch (ctx : DownloadCtx) (pkg : Package)
    (store : Store) (hne : pkg.files ≠ [])
    (hfresh : store (rawArchivePath ctx pkg) = none)
    (hw : (ctx.choose pkg).isWheel = true)
    (hmiss : matchesFiles pkg
        ("sha256:" ++ ctx.sha256hex (ctx.fetch (ctx.choose pkg).url)) = false) :
    (download ctx pkg (download ctx pkg store).2.1).2.2
      = Except.error (DownloadError.integrityMismatch pkg.name
          (baseName (rawArchivePath ctx pkg))) := by
  have h1 : download ctx pkg store
      = gateAndReturn ctx pkg (rawArchivePath ctx pkg)
          (Store.write store (rawArchivePath ctx pkg) (ctx.fetch (ctx.choose pkg).url))
          (missEvs ctx pkg) := by
    rw [download_eq_miss ctx pkg store hfresh, downloadMiss_wheel ctx pkg store hw]
  have h2 : (download ctx pkg store).2.1
      = Store.write store (rawArchivePath ctx pkg) (ctx.fetch (ctx.choose pkg).url) := by
    rw [h1]
    exact (gateAndReturn_effects _ _ _ _ _).2
  rw [h2, download_eq_hit ctx pkg _ (ctx.fetch (ctx.choose pkg).url) (Store.write_same _ _ _),
    gateAndReturn_resolved ctx pkg _ _ _ _ hne (Store.write_same _ _ _)]
  simp [hmiss]

/-- C1: for a package with non-empty files, a fresh _download computes the
artifact digest as sha256: plus the hex digest and requires membership in the
recorded hash set; on a match it succeeds and returns the artifact path (the
cache entry itself for a wheel link), and on any other digest it raises the
integrity error naming the package and archive, and the cache entry it left
behind never validates: a subsequent call for a wheel link raises again. -/
theorem download_hash_gate (ctx : DownloadCtx) (pkg : Package) (store : Store)
    (hne : pkg.files ≠ []) (hfresh : store (rawArchivePath ctx pkg) = none) :
    (matchesFiles pkg (freshDigest ctx pkg) = true →
        (download ctx pkg store).2.2 = Except.ok (freshArtifactPath ctx pkg)
        ∧ ((ctx.choose pkg).isWheel = true →
            freshArtifactPath ctx pkg = rawArchivePath ctx pkg))
    ∧ (matchesFiles pkg (freshDigest ctx pkg) = false →
        (download ctx pkg store).2.2
          = Except.error (DownloadError.integrityMismatch pkg.name
              (baseName (freshArtifactPath ctx pkg)))
        ∧ ((ctx.choose pkg).isWheel = true →
            (download ctx pkg (download ctx pkg store).2.1).2.2
              = Except.error (DownloadError.integrityMismatch pkg.name
                  (baseName (rawArchivePath ctx pkg))))) := by
  constructor
  · intro hmatch
    constructor
    · rw [download_fresh_resolved ctx pkg store hne hfresh]
      simp [hmatch]
    · intro hw
      simp [freshArtifactPath, hw]
  · intro hmiss
    constructor
    · rw [download_fresh_resolved ctx pkg store hne hfresh]
      simp [hmiss]
    · intro hw
      have hdig : "sha256:" ++ ctx.sha256hex (ctx.fetch (ctx.choose pkg).url)
          = freshDigest ctx pkg := by
        simp [freshDigest, freshArtifactContent, hw]
      exact download_after_fresh_wheel_mismatch ctx pkg store hne hfresh hw
        (by rw [hdig]; exact hmiss)

/-- C9: the hash gate is evaluated on cache hits too: with non-empty files and
an already-cached artifact whose digest matches no recorded hash, _download
performs no network access and still raises the integrity error. -/
theorem cached_artifact_hash_gate (ctx : DownloadCtx) (pkg : Package) (store : Store)
    (c : Content) (hne : pkg.files ≠ [])
    (hhit : store (rawArchivePath ctx pkg) = some c)
    (hmiss : matchesFiles pkg ("sha256:" ++ ctx.sha256hex c) = false) :
    (download ctx pkg store).1.all (fun e => !e.isNet) = true
    ∧ (download ctx pkg store).2.2
        = Except.error (DownloadError.integrityMismatch pkg.name
            (baseName (rawArchivePath ctx pkg))) := by
  rw [download_eq_hit ctx pkg store c hhit,
    gateAndReturn_resolved ctx pkg _ _ _ c hne hhit]
  simp [hmiss, Ev.isNet]

/-- C3 (amended): invoking _download twice for the same (name, filename)
performs network I/O only on the first call: the first (fresh) call fetches,
the second call performs no network access; and when the chosen link is a
wheel — so the Chef preparation step, which only runs inside the cache-miss
branch, is not involved — the second call returns exactly the result of the
first call. -/
theorem download_second_call_no_network (ctx : DownloadCtx) (pkg : Package)
    (store : Store) (hfresh : store (rawArchivePath ctx pkg) = none) :
    (download ctx pkg store).1.any Ev.isNet = true
    ∧ (download ctx pkg (download ctx pkg store).2.1).1.all (fun e => !e.isNet) = true
    ∧ ((ctx.choose pkg).isWheel = true →
        (download ctx pkg (download ctx pkg store).2.1).2.2 = (download ctx pkg store).2.2) := by
  have hex : ∃ c, (download ctx pkg store).2.1 (rawArchivePath ctx pkg) = some c := by
    rw [download_eq_miss ctx pkg store hfresh]
    cases hw : (ctx.choose pkg).isWheel
    case false =>
      rw [downloadMiss_sdist ctx pkg store hw, (gateAndReturn_effects _ _ _ _ _).2]
      by_cases hpp : rawArchivePath ctx pkg = ctx.preparePath (rawArchivePath ctx pkg)
      · exact ⟨ctx.prepareContent (ctx.fetch (ctx.choose pkg).url),
          by rw [← hpp]; exact Store.write_same _ _ _⟩
      · simp [Store.write, hpp]
    case true =>
      rw [downloadMiss_wheel ctx pkg store hw, (gateAndReturn_effects _ _ _ _ _).2]
      simp [Store.write]
  obtain ⟨c1, hc1⟩ := hex
  refine ⟨?_, ?_, ?_⟩
  · rw [download_eq_miss ctx pkg store hfresh]
    cases hw : (ctx.choose pkg).isWheel
    case false =>
      rw [downloadMiss_sdist ctx pkg store hw, (gateAndReturn_effects _ _ _ _ _).1]
      simp [missEvs, Ev.isNet]
    case true =>
      rw [downloadMiss_wheel ctx pkg store hw, (gateAndReturn_effects _ _ _ _ _).1]
      simp [missEvs, Ev.isNet]
  · rw [download_eq_hit ctx pkg _ c1 hc1, (gateAndReturn_effects _ _ _ _ _).1]
    simp [Ev.isNet]
  · intro hw
    have h1 : download ctx pkg store
        = gateAndReturn ctx pkg (rawArchivePath ctx pkg)
            (Store.write store (rawArchivePath ctx pkg) (ctx.fetch (ctx.choose pkg).url))
            (missEvs ctx pkg) := by
      rw [download_eq_miss ctx pkg store hfresh, downloadMiss_wheel ctx pkg store hw]
    have h2 : (download ctx pkg store).2.1
        = Store.write store (rawArchivePath ctx pkg) (ctx.fetch (ctx.choose pkg).url) := by
      rw [h1]
      exact (gateAndReturn_effects _ _ _ _ _).2
    rw [h2, download_eq_hit ctx pkg _ (ctx.fetch (ctx.choose pkg).url) (Store.write_same _ _ _)]
    rw [h1]
    exact gateAndReturn_result_ev_indep ctx pkg _ _ _ _

/-- Concrete wheel link for witnesses. -/
def linkWheel : Link :=
  { url := "https://files/demo-1.0-py3-none-any.whl"
    filename := "demo-1.0-py3-none-any.whl"
    isWheel := true }

/-- Concrete download context selecting a wheel link, with a toy injective
digest on the two contents used by witnesses. -/
def ctxWheel : DownloadCtx :=
  { choose := fun _ => linkWheel
    fetch := fun _ => [1, 2, 3]
    sha256hex := fun c => if c = [1, 2, 3] then "abc" else "other"
    preparePath := fun p => p
    prepareContent := fun c => c }

/-- Concrete package whose files record the digest of the fetched wheel. -/
def pkgFiles : Package :=
  { name := "demo"
    prettyName := "demo"
    version := "1.0"
    fullPrettyVersion := "1.0"
    sourceType := ""
    sourceUrl := ""
    sourceReference := ""
    develop := false
    rootDir := none
    files := [{ file := "demo-1.0-py3-none-any.whl", hash := "sha256:abc" }] }

/-- The empty artifact cache. -/
def storeEmpty : Store := fun _ => none

/-- A cache that already holds content [9] (digest other) for the entry. -/
def storeCached : Store :=
  Store.write storeEmpty (rawArchivePath ctxWheel pkgFiles) [9]

/-- Witness for C1 at the concrete matching download. -/
theorem download_hash_gate_witness :
    (download ctxWheel pkgFiles storeEmpty).2.2
      = Except.ok (freshArtifactPath ctxWheel pkgFiles) :=
  ((download_hash_gate ctxWheel pkgFiles storeEmpty (by decide) rfl).1 (by decide)).1

/-- Witness for C9 at the concrete stale cache entry. -/
theorem cached_artifact_hash_gate_witness :
    (download ctxWheel pkgFiles storeCached).2.2
      = Except.error (DownloadError.integrityMismatch pkgFiles.name
          (baseName (rawArchivePath ctxWheel pkgFiles))) :=
  (cached_artifact_hash_gate ctxWheel pkgFiles storeCached [9] (by decide) (by decide)
    (by decide)).2

/-- Witness for C3 (amended) at the concrete wheel download. -/
theorem download_second_call_no_network_witness :
    (download ctxWheel pkgFiles (download ctxWheel pkgFiles storeEmpty).2.1).1.all
      (fun e => !e.isNet) = true :=
  (download_second_call_no_network ctxWheel pkgFiles storeEmpty rfl).2.1

/-- Concrete non-wheel (sdist) link. -/
def linkSdist : Link :=
  { url := "https://files/demo-1.0.tar.gz"
    filename := "demo-1.0.tar.gz"
    isWheel := false }

/-- Concrete download context selecting the sdist link, whose Chef preparer
output path differs from the raw cache path. -/
def ctxSdist : DownloadCtx :=
  { choose := fun _ => linkSdist
    fetch := fun _ => [1]
    sha256hex := fun _ => "h"
    preparePath := fun p => p ++ ".whl"
    prepareContent := fun c => c }

/-- Counterexample to C3 as stated: for a non-wheel link the first _download
returns the preparer output path while the second call, which skips the
cache-miss branch and with it the preparation step, returns the raw cache
path: the two calls return different paths. -/
theorem download_second_call_path_differs :
    (download ctxSdist pkgReg storeEmpty).2.2
        = Except.ok (rawArchivePath ctxSdist pkgReg ++ ".whl")
    ∧ (download ctxSdist pkgReg (download ctxSdist pkgReg storeEmpty).2.1).2.2
        = Except.ok (rawArchivePath ctxSdist pkgReg)
    ∧ (Except.ok (rawArchivePath ctxSdist pkgReg ++ ".whl") : Except DownloadError String)
        ≠ Except.ok (rawArchivePath ctxSdist pkgReg) := by
  refine ⟨by decide, by decide, by decide⟩

/-- Relevant content of pyproject.toml for _install_directory. -/
structure PyprojectContent where
  hasToolPoetry : Bool
  hasBuildSystemTable : Bool
  deriving DecidableEq

/-- State of the target project directory: the pyproject file (none when it
does not exist) and whether setup.py exists. -/
structure Project where
  pyproject : Option PyprojectContent
  setupExists : Bool
  deriving DecidableEq

/-- has_poetry of _install_directory: pyproject exists, and tool is in the
content with poetry under it. -/
def hasPoetryOf (proj : Project) : Bool :=
  match proj.pyproject with
  | some c => c.hasToolPoetry
  | none => false

/-- has_build_system of _install_directory: initialized to False and never
reassigned — the content check for a build-system table is commented out in
the source — so it is False whatever the pyproject declares. -/
def hasBuildSystemOf (_ : Project) : Bool := false

/-- Whether the pyproject declares a modern build-system table (what the
commented-out check would have read). -/
def declaresBuildSystem (proj : Project) : Bool :=
  match proj.pyproject with
  | some c => c.hasBuildSystemTable
  | none => false

/-- The shim-synthesis condition of _install_directory line 219:
not has_setup and has_poetry and (package.develop or not has_build_system). -/
def shimSynthesized (pkg : Package) (proj : Project) : Bool :=
  !proj.setupExists && hasPoetryOf proj && (pkg.develop || !hasBuildSystemOf proj)

/-- The synthesis condition as claim C7 states it, with the build-system
disjunct read from the pyproject content (no modern build-system declaration)
rather than from the flag the code actually consults. -/
def shimSynthesizedSpec (pkg : Package) (proj : Project) : Bool :=
  !proj.setupExists && hasPoetryOf proj && (pkg.develop || !declaresBuildSystem proj)

/-- Resolved request path of _install_directory: root_dir joined with
source_url when root_dir is set, else source_url (os.path.realpath is the
identity on the already-absolute model paths). -/
def reqPath (pkg : Package) : String :=
  match pkg.rootDir with
  | some r => r ++ "/" ++ pkg.sourceUrl
  | none => pkg.sourceUrl

/-- Path of the (possibly synthesized) legacy build script. -/
def setupPath (pkg : Package) : String := reqPath pkg ++ "/setup.py"

/-- Directory-install notice (suppressed when called from the VCS installer). -/
def dirInstallMsg (p : Package) : String :=
  "  - Installing <c1>" ++ p.name ++ "</c1> (<b>" ++ p.fullPrettyVersion ++ "</b>)"

/-- Executor._install_directory. The pip subprocess is the parameter runB,
modelled from the spec as an opaque invocation: given whether setup.py exists
when it starts, it reports whether setup.py exists when it ends (it may
create or delete the file) and its outcome (Except.error is a raise). The
try/finally cleanup removes setup.py whenever it did not exist at entry and
exists after the subprocess, on success and failure alike; the result or
exception of the subprocess is passed through unchanged. -/
def installDirectory (runB : Bool → Bool × Except String String) (pkg : Package)
    (proj : Project) (fromVcs : Bool) : List Ev × Project × Except String String :=
  let preEvs := if fromVcs then [] else [Ev.log (dirInstallMsg pkg)]
  let hasSetup := proj.setupExists
  let synth := shimSynthesized pkg proj
  let proj1 : Project := if synth then { proj with setupExists := true } else proj
  let shimEvs := if synth then [Ev.fsWrite (setupPath pkg)] else []
  let args := ["install", "--no-deps", "-U"]
      ++ (if pkg.develop then ["-e"] else []) ++ [reqPath pkg]
  let out := runB proj1.setupExists
  let finalSetup := if !hasSetup && out.1 then false else out.1
  (preEvs ++ shimEvs ++ [Ev.run (["python", "-m", "pip"] ++ args)],
    { proj1 with setupExists := finalSetup }, out.2)

/-- C6: whenever the temporary build shim was synthesized, setup.py is absent
after _install_directory returns, for every behaviour of the install
subprocess — whether it succeeds or raises — and the subprocess outcome is
passed through unchanged. -/
theorem shim_removed_on_every_exit (runB : Bool → Bool × Except String String)
    (pkg : Package) (proj : Project) (fromVcs : Bool)
    (hsynth : shimSynthesized pkg proj = true) :
    ((installDirectory runB pkg proj fromVcs).2.1).setupExists = false
    ∧ (installDirectory runB pkg proj fromVcs).2.2 = (runB true).2 := by
  have hns : proj.setupExists = false := by
    have := hsynth
    unfold shimSynthesized at this
    cases hs : proj.setupExists
    · rfl
    · rw [hs] at this
      simp at this
  unfold installDirectory
  rw [hsynth, hns]
  cases hrun : (runB true).1 <;> simp [hrun]

/-- A subprocess behaviour that creates setup.py and then raises. -/
def runCreatesAndRaises : Bool → Bool × Except String String :=
  fun _ => (true, Except.error "Command install failed")

/-- A develop-mode directory package over a poetry project, for witnesses. -/
def pkgDirDev : Package :=
  { name := "demo"
    prettyName := "demo"
    version := "1.0"
    fullPrettyVersion := "1.0"
    sourceType := "directory"
    sourceUrl := "/home/work/demo"
    sourceReference := ""
    develop := true
    rootDir := none
    files := [] }

/-- A poetry project without setup.py and without a build-system table. -/
def projPoetry : Project :=
  { pyproject := some { hasToolPoetry := true, hasBuildSystemTable := false }
    setupExists := false }

/-- Witness for C6: the shim is synthesized, the subprocess raises, and the
shim is gone after the call. -/
theorem shim_removed_on_every_exit_witness :
    ((installDirectory runCreatesAndRaises pkgDirDev projPoetry false).2.1).setupExists = false :=
  (shim_removed_on_every_exit runCreatesAndRaises pkgDirDev projPoetry false (by decide)).1

/-- C7 (amended): the shim write happens iff no setup.py exists and the
project has the tool.poetry table; because has_build_system is constantly
False in the source, the disjunct (develop or not has_build_system) is always
true, and a modern build-system declaration in the pyproject does not
suppress the shim. -/
theorem shim_synthesis_rule (runB : Bool → Bool × Except String String)
    (pkg : Package) (proj : Project) (fromVcs : Bool) :
    (Ev.fsWrite (setupPath pkg) ∈ (installDirectory runB pkg proj fromVcs).1
      ↔ (proj.setupExists = false ∧ hasPoetryOf proj = true))
    ∧ shimSynthesized pkg proj
        = (!proj.setupExists && hasPoetryOf proj && (pkg.develop || !hasBuildSystemOf proj)) := by
  refine ⟨?_, rfl⟩
  unfold installDirectory
  cases hsy : shimSynthesized pkg proj
  · have : ¬(proj.setupExists = false ∧ hasPoetryOf proj = true) := by
      intro hc
      unfold shimSynthesized at hsy
      rw [hc.1, hc.2] at hsy
      simp [hasBuildSystemOf] at hsy
    cases fromVcs <;> simp [this]
  · have : proj.setupExists = false ∧ hasPoetryOf proj = true := by
      unfold shimSynthesized at hsy
      constructor
      · cases hs : proj.setupExists
        · rfl
        · rw [hs] at hsy
          simp at hsy
      · cases hp : hasPoetryOf proj
        · rw [hp] at hsy
          simp at hsy
        · rfl
    cases fromVcs <;> simp [this]

/-- A directory package with develop = false, for the C7 counterexample. -/
def pkgDirPlain : Package :=
  { name := "demo"
    prettyName := "demo"
    version := "1.0"
    fullPrettyVersion := "1.0"
    sourceType := "directory"
    sourceUrl := "/home/work/demo"
    sourceReference := ""
    develop := false
    rootDir := none
    files := [] }

/-- A poetry project without setup.py that does declare a build-system table. -/
def projPoetryBS : Project :=
  { pyproject := some { hasToolPoetry := true, hasBuildSystemTable := true }
    setupExists := false }

/-- Counterexample to C7 as stated: a non-develop package over a poetry
project that declares a modern build-system table still gets the shim (the
code never reads the declaration), while the claimed condition is false. -/
theorem shim_rule_counterexample :
    shimSynthesized pkgDirPlain projPoetryBS = true
    ∧ shimSynthesizedSpec pkgDirPlain projPoetryBS = false := by
  refine ⟨by decide, by decide⟩

/-- C10: _install_directory removes setup.py on exit whenever none existed at
the start of the call, regardless of whether the executor synthesized it —
in particular when the install subprocess itself created it. -/
theorem stray_setup_removed (runB : Bool → Bool × Except String String)
    (pkg : Package) (proj : Project) (fromVcs : Bool)
    (hns : proj.setupExists = false) :
    ((installDirectory runB pkg proj fromVcs).2.1).setupExists = false := by
  unfold installDirectory
  rw [hns]
  cases hsy : shimSynthesized pkg proj <;> simp [hns]

/-- A subprocess behaviour that creates setup.py as a side effect and succeeds. -/
def runCreatesSetup : Bool → Bool × Except String String :=
  fun _ => (true, Except.ok "ok")

/-- A project with no pyproject and no setup.py: no shim is synthesized. -/
def projBare : Project := { pyproject := none, setupExists := false }

/-- Witness for C10: no shim is synthesized, the subprocess creates setup.py,
and it is removed after the call. -/
theorem stray_setup_removed_witness :
    shimSynthesized pkgDirPlain projBare = false
    ∧ ((installDirectory runCreatesSetup pkgDirPlain projBare false).2.1).setupExists = false :=
  ⟨by decide, stray_setup_removed runCreatesSetup pkgDirPlain projBare false rfl⟩

/-- Ephemeral clone directory: env.path / "src" / package.name. -/
def srcDirOf (envPath : String) (pkg : Package) : String :=
  envPath ++ "/src/" ++ pkg.name

/-- Cloning notice of _install_git. -/
def cloningMsg (p : Package) : String :=
  "  - Cloning <info>" ++ p.name ++ "</info> (<comment>" ++ p.fullPrettyVersion
    ++ "</comment>)"

/-- Installing notice of _install_git. -/
def gitInstallingMsg (p : Package) : String :=
  "  - Installing <info>" ++ p.name ++ "</info> (<comment>" ++ p.fullPrettyVersion
    ++ "</comment>)"

/-- Result of _install_git up to the delegation: the trace, the newly
constructed Package handed to the directory installer, and the caller's
package value after the call (the source constructs a fresh Package and
assigns none of the attributes of the input). -/
structure GitResult where
  events : List Ev
  delegated : Package
  original : Package
  deriving DecidableEq

/-- Executor._install_git: emit the cloning notice; in _clone, remove the
ephemeral source directory if it already exists, mkdir its parent, clone
source_url, check out source_reference, and build a new Package of the same
name and version with source_type directory, source_url the clone path and
develop true; then emit the installing notice. The ANSI or debug output
branches only change formatting and collapse to a single log event. -/
def installGit (envPath : String) (pkg : Package) (srcDirExists : Bool) : GitResult :=
  let srcDir := srcDirOf envPath pkg
  let rmEvs := if srcDirExists then [Ev.fsRemove srcDir] else []
  let cloneEvs := rmEvs
      ++ [Ev.mkdirEv (envPath ++ "/src"), Ev.cloneEv pkg.sourceUrl srcDir,
          Ev.checkoutEv pkg.sourceReference srcDir]
  let fresh := Package.fresh pkg.name pkg.version
  let delegated :=
    { fresh with sourceType := "directory", sourceUrl := srcDir, develop := true }
  { events := [Ev.log (cloningMsg pkg)] ++ cloneEvs ++ [Ev.log (gitInstallingMsg pkg)]
    delegated := delegated
    original := pkg }

/-- _install_git then delegates to _install_directory with the new package
and from_vcs = True, suppressing the directory-level notice. -/
def installGitFull (runB : Bool → Bool × Except String String) (envPath : String)
    (pkg : Package) (srcDirExists : Bool) (proj : Project) :
    List Ev × Project × Except String String :=
  let g := installGit envPath pkg srcDirExists
  let d := installDirectory runB g.delegated proj true
  (g.events ++ d.1, d.2.1, d.2.2)

/-- C5: _install_git removes the ephemeral clone directory exactly when it
already exists and does so before cloning; it clones source_url and then
checks out source_reference there; the package delegated to the directory
installer is newly constructed with source_type directory, develop true,
source_url the clone path, and the name and version of the input; and the
input package value is unchanged. -/
theorem install_git_spec (envPath : String) (pkg : Package) (srcDirExists : Bool) :
    ((installGit envPath pkg srcDirExists).events
      = [Ev.log (cloningMsg pkg)]
        ++ (if srcDirExists then [Ev.fsRemove (srcDirOf envPath pkg)] else [])
        ++ [Ev.mkdirEv (envPath ++ "/src"),
            Ev.cloneEv pkg.sourceUrl (srcDirOf envPath pkg),
            Ev.checkoutEv pkg.sourceReference (srcDirOf envPath pkg),
            Ev.log (gitInstallingMsg pkg)])
    ∧ (installGit envPath pkg srcDirExists).delegated.sourceType = "directory"
    ∧ (installGit envPath pkg srcDirExists).delegated.develop = true
    ∧ (installGit envPath pkg srcDirExists).delegated.sourceUrl = srcDirOf envPath pkg
    ∧ (installGit envPath pkg srcDirExists).delegated.name = pkg.name
    ∧ (installGit envPath pkg srcDirExists).delegated.version = pkg.version
    ∧ (installGit envPath pkg srcDirExists).delegated
        = { Package.fresh pkg.name pkg.version with
            sourceType := "directory"
            sourceUrl := srcDirOf envPath pkg
            develop := true }
    ∧ (installGit envPath pkg srcDirExists).original = pkg := by
  cases srcDirExists <;>
    simp [installGit, Package.fresh]

/-- Whether needle occurs as a contiguous run of hay. -/
def containsAux (needle : List Char) : List Char → Bool
  | [] => needle.isEmpty
  | c :: rest => List.isPrefixOf needle (c :: rest) || containsAux needle rest

/-- Substring containment, str(e) containment in _remove. -/
def containsSub (needle hay : String) : Bool :=
  containsAux needle.toList hay.toList

/-- Executor._remove: for a git-sourced package whose ephemeral source
directory exists, remove that directory first; then invoke pip uninstall.
The parameter runOut is the subprocess outcome, modelled from the spec: ok
is a normal exit, error m is a CalledProcessError whose str is m. An error
whose text contains the substring "not installed" is swallowed (success);
any other error is re-raised unchanged. -/
def removePkg (runOut : Except String String) (envPath : String) (pkg : Package)
    (srcDirExists : Bool) : List Ev × Except String Unit :=
  let pre := if pkg.sourceType = "git" then
      (if srcDirExists then [Ev.fsRemove (srcDirOf envPath pkg)] else [])
    else []
  let evs := pre ++ [Ev.run ["python", "-m", "pip", "uninstall", pkg.name, "-y"]]
  match runOut with
  | Except.ok _ => (evs, Except.ok ())
  | Except.error m =>
      if containsSub "not installed" m then (evs, Except.ok ())
      else (evs, Except.error m)

/-- C8: _remove completes without error when the uninstall subprocess
succeeds or fails with a message containing "not installed"; a failure whose
message does not contain that substring propagates the original error. -/
theorem remove_not_installed_tolerated (runOut : Except String String)
    (envPath : String) (pkg : Package) (srcDirExists : Bool) :
    (∀ out, runOut = Except.ok out →
        (removePkg runOut envPath pkg srcDirExists).2 = Except.ok ())
    ∧ (∀ m, runOut = Except.error m → containsSub "not installed" m = true →
        (removePkg runOut envPath pkg srcDirExists).2 = Except.ok ())
    ∧ (∀ m, runOut = Except.error m → containsSub "not installed" m = false →
        (removePkg runOut envPath pkg srcDirExists).2 = Except.error m) := by
  refine ⟨?_, ?_, ?_⟩
  · intro out hout
    rw [hout]
    simp [removePkg]
  · intro m hm hsub
    rw [hm]
    simp [removePkg, hsub]
  · intro m hm hsub
    rw [hm]
    simp [removePkg, hsub]

/-- Witness for C8 at concrete outcomes: a tolerated absent-package failure
and a propagated genuine failure. -/
theorem remove_not_installed_tolerated_witness :
    (removePkg (Except.error "WARNING: Skipping demo as it is not installed.")
        "/env" pkgReg false).2 = Except.ok ()
    ∧ (removePkg (Except.error "network unreachable") "/env" pkgReg false).2
        = Except.error "network unreachable" :=
  ⟨(remove_not_installed_tolerated
      (Except.error "WARNING: Skipping demo as it is not installed.") "/env" pkgReg false).2.1
      "WARNING: Skipping demo as it is not installed." rfl (by decide),
   (remove_not_installed_tolerated
      (Except.error "network unreachable") "/env" pkgReg false).2.2
      "network unreachable" rfl (by decide)⟩

/-- Registry installing notice of _install (formatted from name and version). -/
def registryInstallingMsg (p : Package) : String :=
  "  - Installing <c1>" ++ p.name ++ "</c1> (<b>" ++ p.version ++ "</b>)"

/-- The registry arm of Executor._install (the fallthrough when source_type
is neither directory nor git): download the archive, emit the installing
notice, and invoke pip install --no-deps [-U] archive. The directory and git
arms are modelled by installDirectory and installGit. -/
def installRegistry (ctx : DownloadCtx) (pkg : Package) (update : Bool) (store : Store) :
    List Ev × Store × Except DownloadError Unit :=
  let d := download ctx pkg store
  match d.2.2 with
  | Except.error e => (d.1, d.2.1, Except.error e)
  | Except.ok archive =>
      let args := ["install", "--no-deps"] ++ (if update then ["-U"] else []) ++ [archive]
      (d.1 ++ [Ev.log (registryInstallingMsg pkg),
               Ev.run (["python", "-m", "pip"] ++ args)],
        d.2.1, Except.ok ())

/-- self._install(package) for a registry-sourced package: the real action
invoked by _execute_install when enabled and not dry_run. -/
def installAction (ctx : DownloadCtx) (pkg : Package) :
    Store → List Ev × Store × Except DownloadError Unit :=
  fun st => installRegistry ctx pkg false st

/-- self._update(source, target) = self._install(target, update=True), for a
registry-sourced target: the real action invoked by _execute_update. -/
def updateAction (ctx : DownloadCtx) (target : Package) :
    Store → List Ev × Store × Except DownloadError Unit :=
  fun st => installRegistry ctx target true st

/-- Non-skipped install operation on the registry package. -/
def opInstallReg : InstallOp := { package := pkgReg, skipped := false, skipReason := "" }

/-- Non-skipped update operation on the registry package. -/
def opUpdateReg : UpdateOp :=
  { initialPackage := pkgReg, targetPackage := pkgReg, skipped := false, skipReason := "" }

/-- The failing policy: enabled with dry_run set. -/
def polDry : Policy := { enabled := true, dryRun := true, verbose := false }

/-- C2: evaluation at the failing input enabled = true, dry_run = true, on a
non-skipped registry package. _execute_install honours dry_run: it emits the
single notice and performs no network access and no subprocess invocation.
_execute_update does not: its early return tests only (not enabled), so under
dry_run it still performs the real update — the trace contains a network
download and a pip subprocess invocation, contradicting the claim. -/
theorem dry_run_update_invokes_subprocess :
    ((executeInstall (installAction ctxWheel pkgReg) polDry opInstallReg storeEmpty).1
        = [Ev.log (dryInstallMsg pkgReg)])
    ∧ ((executeInstall (installAction ctxWheel pkgReg) polDry opInstallReg storeEmpty).1.all
        (fun e => !e.isRun && !e.isNet) = true)
    ∧ ((executeUpdate (updateAction ctxWheel pkgReg) polDry opUpdateReg storeEmpty).1.any
        Ev.isRun = true)
    ∧ ((executeUpdate (updateAction ctxWheel pkgReg) polDry opUpdateReg storeEmpty).1.any
        Ev.isNet = true) := by
  refine ⟨by decide, by decide, by decide, by decide⟩

/-- Download context for the C1 counterexample: a non-wheel link whose Chef
output path and content differ from the raw cache entry, with a toy digest
separating the raw body from the prepared content. -/
def ctxMix : DownloadCtx :=
  { choose := fun _ => linkSdist
    fetch := fun _ => [1]
    sha256hex := fun c => if c = [1] then "raw" else "prep"
    preparePath := fun p => p ++ ".whl"
    prepareContent := fun c => c ++ [0] }

/-- Package whose files record the digest of the prepared artifact. -/
def pkgPrepHash : Package :=
  { pkgReg with files := [{ file := "demo-1.0.tar.gz", hash := "sha256:prep" }] }

/-- Package whose files record the digest of the raw body only. -/
def pkgRawHash : Package :=
  { pkgReg with files := [{ file := "demo-1.0.tar.gz", hash := "sha256:raw" }] }

/-- Counterexample to C1 as stated: for a non-wheel link the hash gate runs on
the Chef preparer output, so (i) a matching fresh download succeeds but
returns the preparer output path, which is not the cache path, and (ii) after
a mismatch the raw cache entry left behind validates on the very next call —
the integrity error does not leave the cache without a valid entry. -/
theorem download_gate_counterexample :
    ((download ctxMix pkgPrepHash storeEmpty).2.2
        = Except.ok (rawArchivePath ctxMix pkgPrepHash ++ ".whl")
      ∧ (Except.ok (rawArchivePath ctxMix pkgPrepHash ++ ".whl") : Except DownloadError String)
        ≠ Except.ok (rawArchivePath ctxMix pkgPrepHash))
    ∧ ((download ctxMix pkgRawHash storeEmpty).2.2
        = Except.error (DownloadError.integrityMismatch pkgRawHash.name
            (baseName (rawArchivePath ctxMix pkgRawHash ++ ".whl")))
      ∧ (download ctxMix pkgRawHash (download ctxMix pkgRawHash storeEmpty).2.1).2.2
        = Except.ok (rawArchivePath ctxMix pkgRawHash)) := by
  refine ⟨⟨by decide, by decide⟩, by rfl, by decide⟩
